import Mathlib

/-!
Shallow embedding of the terratrak analytics core
(`src/lib/trend.ts` and the harvest helpers file) and verification of the
frozen claims about it.

Modelling conventions:
* JavaScript `number` arithmetic is idealised as exact arithmetic: `ℚ` for
  the functions that use only field operations, `ℝ` for the ones that call
  `Math.sqrt`.
* `x.toFixed(d)` followed by `Number(...)` (and `Math.round`) round half
  toward +∞ (ECMAScript picks the larger integer on ties), i.e.
  `⌊x·10^d + 1/2⌋ / 10^d`; this is `round` in Mathlib.
* `NaN` results are modelled as `Option.none`; optional parameters and
  possibly-`undefined` array reads are modelled with `Option`.
* The ambient inputs a function reads are explicit arguments: the settings
  record `localStorage` hands to `computeTrend`, and the `Date.now()` clock
  read by `timeToTarget`.
-/

namespace Terratrak

/-- `l.slice(-n)` for `n ≤ l.length`: the trailing `n` elements. -/
def lastN (n : ℕ) (l : List ℚ) : List ℚ := l.drop (l.length - n)

/-- `Number(x.toFixed(3))`. -/
def round3 (x : ℚ) : ℚ := ((⌊x * 1000 + 1 / 2⌋ : ℤ) : ℚ) / 1000

/-- `Number(x.toFixed(4))`. -/
def round4 (x : ℚ) : ℚ := ((⌊x * 10000 + 1 / 2⌋ : ℤ) : ℚ) / 10000

/-- The settings record parsed from `localStorage` (`tt_trend_settings`);
all three fields are optional in the source (`opts.x ?? default`). -/
structure TrendSettings where
  slopeNormThreshold : Option ℚ
  pctThreshold : Option ℚ
  slightPct : Option ℚ
deriving DecidableEq

/-- The hardcoded fallback returned by `getTrendSettings` when the stored
blob is absent or unparsable. -/
def getTrendSettingsDefault : TrendSettings :=
  { slopeNormThreshold := some 0.6, pctThreshold := some 3, slightPct := some 1.5 }

/-- Output record of `computeTrend`. -/
structure TrendResult where
  pct : ℚ
  slope : ℚ
  slopeNorm : ℚ
  trend : String
  interp : String
deriving DecidableEq

/-- Time-weighted regression branch of `computeTrend` (`times.length >= n`):
`ts` is the already-aligned trailing slice; returns `(slope, slopeNorm)`. -/
def trendTime (arr ts : List ℚ) : ℚ × ℚ :=
  let n : ℚ := arr.length
  let t0 := ts.getD 0 0
  let xs := ts.map (fun t => (t - t0) / (1000 * 60 * 60 * 24))
  let sumX := xs.sum
  let sumY := arr.sum
  let sumXY := ((xs.zip arr).map (fun p => p.1 * p.2)).sum
  let sumXX := (xs.map (fun x => x * x)).sum
  let d0 := n * sumXX - sumX * sumX
  let denom := if d0 = 0 then 1 else d0
  let slope := (n * sumXY - sumX * sumY) / denom
  let mean0 := sumY / n
  let mean := if mean0 = 0 then 1 else mean0
  let span0 := xs.getD (xs.length - 1) 0 - xs.getD 0 0
  let timeSpanDays :=
    if span0 = 0 then (if 1 < arr.length then (arr.length : ℚ) - 1 else 1) else span0
  (slope, slope * timeSpanDays / max 1 |mean|)

/-- Index-based regression fallback branch of `computeTrend`. -/
def trendIdx (arr : List ℚ) : ℚ × ℚ :=
  let n : ℚ := arr.length
  let xs := (List.range arr.length).map (fun i => (i : ℚ))
  let sumX := xs.sum
  let sumY := arr.sum
  let sumXY := ((xs.zip arr).map (fun p => p.1 * p.2)).sum
  let sumXX := (xs.map (fun x => x * x)).sum
  let d0 := n * sumXX - sumX * sumX
  let denom := if d0 = 0 then 1 else d0
  let slope := (n * sumXY - sumX * sumY) / denom
  let mean0 := sumY / n
  let mean := if mean0 = 0 then 1 else mean0
  (slope, slope * n / max 1 |mean|)

/-- Classification chain of `computeTrend` (first match wins). -/
def trendLabel (slopeNormThreshold pctThreshold slightPct slopeNorm pct : ℚ) : String :=
  if slopeNormThreshold < slopeNorm ∨ pctThreshold < pct then "Rising"
  else if slopeNorm < -slopeNormThreshold ∨ pct < -pctThreshold then "Falling"
  else if slightPct < |pct| then (if 0 < pct then "Slightly rising" else "Slightly falling")
  else "Stable"

/-- Interpretation string derived from the classified label. -/
def trendInterp (trend : String) : String :=
  if trend = "Rising" then "Increasing — investigate causes"
  else if trend = "Falling" then "Decreasing — consider corrective action"
  else "Stable — within expected variation"

/-- `computeTrend(arr, times?)`. The settings record is the snapshot
`getTrendSettings()` reads from storage, passed explicitly. The source's
`try`/`catch` around the regression cannot fire under exact arithmetic. -/
def computeTrend (opts : TrendSettings) (arr : List ℚ) (times : Option (List ℚ)) :
    TrendResult :=
  let slopeNormThreshold := opts.slopeNormThreshold.getD 0.6
  let pctThreshold := opts.pctThreshold.getD 3
  let slightPct := opts.slightPct.getD 1.5
  let n := arr.length
  if n < 2 then ⟨0, 0, 0, "N/A", "Not enough data"⟩
  else
    let first := arr.getD 0 0
    let last := arr.getD (n - 1) 0
    let pct := if first ≠ 0 then (last - first) / |first| * 100 else 0
    let sp :=
      match times with
      | some ts => if n ≤ ts.length then trendTime arr (lastN n ts) else trendIdx arr
      | none => trendIdx arr
    let trend := trendLabel slopeNormThreshold pctThreshold slightPct sp.2 pct
    ⟨pct, sp.1, sp.2, trend, trendInterp trend⟩

/-- `rateOfChangePerHour(values, times?)` — the `slopePerHour` field.
Timestamps are used only when `times.length === values.length`. -/
def rateOfChangePerHour (values : List ℚ) (times : Option (List ℚ)) : ℚ :=
  let n := values.length
  if n < 2 then 0
  else
    let N := min 48 n
    let ys := lastN N values
    let ts : List ℚ :=
      match times with
      | some ts =>
          if ts.length = values.length then lastN N ts
          else (List.range ys.length).map (fun i => (i : ℚ))
      | none => (List.range ys.length).map (fun i => (i : ℚ))
    let t0 := ts.getD 0 0
    let xs := ts.map (fun t => (t - t0) / (1000 * 60 * 60))
    let xm := xs.sum / xs.length
    let ym := ys.sum / ys.length
    let num := ((xs.zip ys).map (fun p => (p.1 - xm) * (p.2 - ym))).sum
    let den := (xs.map (fun x => (x - xm) * (x - xm))).sum
    let slope := if den = 0 then 0 else num / den
    round4 slope

/-- Output record of `timeToTarget`. -/
structure TTResult where
  hours : ℚ
  eta : ℚ
deriving DecidableEq

/-- `timeToTarget(values, times, target)`. `now` is the `Date.now()` reading
taken during the call. The two `Number.isFinite` guards of the source cannot
fire under exact arithmetic (the divisor is bounded away from zero first). -/
def timeToTarget (values : List ℚ) (times : Option (List ℚ)) (target : ℚ) (now : ℚ) :
    Option TTResult :=
  if values.length = 0 then none
  else
    let last := values.getD (values.length - 1) 0
    let slopePerHour := rateOfChangePerHour values times
    if |slopePerHour| < 1 / 1000000 then none
    else
      let hours := (target - last) / slopePerHour
      some ⟨hours, now + ((⌊hours * 3600 * 1000 + 1 / 2⌋ : ℤ) : ℚ)⟩

/-- Output record of `computeCdh`. -/
structure CdhResult where
  cdh : ℚ
  series : List ℚ
deriving DecidableEq

/-- Duration (hours) attributed to sample `i` by `computeCdh`: forward
difference to the next timestamp when both reads are defined, else the
previous-to-current difference when `i > 0` and `times[i-1]` is defined,
else the fixed 9-second fallback. In the arm where `times[i-1]` is defined
but `times[i]` is not, the source computes `NaN`; that arm is unreachable
for timestamp arrays at least as long as the temperature array. -/
def cdhDt (times : Option (List ℚ)) (i : ℕ) : ℚ :=
  match times with
  | none => 9 / 3600
  | some ts =>
    match ts.get? i, ts.get? (i + 1) with
    | some ti, some ti1 => max 0 ((ti1 - ti) / 1000 / 3600)
    | _, _ =>
      if 0 < i then
        match ts.get? (i - 1), ts.get? i with
        | some tim1, some ti => max 0 ((ti - tim1) / 1000 / 3600)
        | some _, none => 0
        | none, _ => 9 / 3600
      else 9 / 3600

/-- Running (unrounded) accumulator of `computeCdh` after `k` samples. -/
def cdhTotal (temps : List ℚ) (times : Option (List ℚ)) (baseTemp : ℚ) : ℕ → ℚ
  | 0 => 0
  | k + 1 =>
      cdhTotal temps times baseTemp k +
        max 0 (temps.getD k 0 - baseTemp) * cdhDt times k

/-- `computeCdh(temps, times?, baseTemp=20)`: the loop writes
`series[i] = Number(total.toFixed(3))` after adding sample `i`'s term,
and returns the rounded final total as `cdh`. -/
def computeCdh (temps : List ℚ) (times : Option (List ℚ)) (baseTemp : ℚ) : CdhResult :=
  if temps.length = 0 then ⟨0, []⟩
  else
    { cdh := round3 (cdhTotal temps times baseTemp temps.length)
      series :=
        (List.range temps.length).map (fun i => round3 (cdhTotal temps times baseTemp (i + 1))) }

/-- `estimateRate(cdhSeries, times?, windowHours=6)`. Timestamp reads use
absolute positions computed from the window size and the 9-second cadence. -/
def estimateRate (cdhSeries : List ℚ) (times : Option (List ℚ)) (windowHours : ℚ) : ℚ :=
  if cdhSeries.length < 2 then 0
  else
    let n := cdhSeries.length
    let w : ℤ := ⌊windowHours * 3600 / 9⌋
    let spanHours : ℚ :=
      match times with
      | some ts =>
          if 2 ≤ ts.length then
            let start := ts.getD (((ts.length : ℤ) - w - 1).toNat) 0
            let stop := ts.getD (ts.length - 1) 0
            max (1 / 1000000) ((stop - start) / 1000 / 3600)
          else
            let samples : ℤ := min (n : ℤ) (max 2 w)
            ((samples - 1 : ℤ) : ℚ) * 9 / 3600
      | none =>
          let samples : ℤ := min (n : ℤ) (max 2 w)
          ((samples - 1 : ℤ) : ℚ) * 9 / 3600
    let startIdx := ((n : ℤ) - max 2 w).toNat
    let deltaCdh := cdhSeries.getD (n - 1) 0 - cdhSeries.getD startIdx 0
    deltaCdh / max (1 / 1000000) spanHours

/-! Real-valued part of the core: the functions that call `Math.sqrt`. -/

/-- `l.slice(-n)` on real-valued series. -/
noncomputable def lastNR (n : ℕ) (l : List ℝ) : List ℝ := l.drop (l.length - n)

/-- `Number(x.toFixed(2))` on `ℝ`. -/
noncomputable def round2R (x : ℝ) : ℝ := ((round (x * 100) : ℤ) : ℝ) / 100

/-- `Number(x.toFixed(1))` on `ℝ`. -/
noncomputable def round1R (x : ℝ) : ℝ := ((round (x * 10) : ℤ) : ℝ) / 10

/-- `stddev(arr)`: population standard deviation, rounded to 2 decimals;
`0` for empty input. -/
noncomputable def stddev (arr : List ℝ) : ℝ :=
  if arr.length = 0 then 0
  else
    let mean := arr.sum / arr.length
    let v := (arr.map (fun x => (x - mean) * (x - mean))).sum / arr.length
    round2R (Real.sqrt v)

/-- Population mean with the source's `Math.max(1, arr.length)` guard,
as computed inside `detectAnomalies`. -/
noncomputable def popMean (arr : List ℝ) : ℝ := arr.sum / (max 1 arr.length : ℕ)

/-- Population variance with the `max(1, n)` guard (under the square root
in `detectAnomalies`). -/
noncomputable def popVariance (arr : List ℝ) : ℝ :=
  (arr.map (fun x => (x - popMean arr) * (x - popMean arr))).sum / (max 1 arr.length : ℕ)

/-- Unrounded population standard deviation used by `detectAnomalies`. -/
noncomputable def popSd (arr : List ℝ) : ℝ := Real.sqrt (popVariance arr)

open Classical in
/-- `detectAnomalies(arr, zThreshold=2)`: empty when the standard deviation
is zero, else the indices (in loop order) whose z-score passes the bar. -/
noncomputable def detectAnomalies (arr : List ℝ) (zThreshold : ℝ) : List ℕ :=
  if popSd arr = 0 then []
  else
    (List.range arr.length).filter
      (fun i => zThreshold ≤ |(arr.getD i 0 - popMean arr) / popSd arr|)

/-- Trailing window `a.slice(-n)` of the first correlation argument,
`n = min(len a, len b)`. -/
noncomputable def pearsonWindowA (a b : List ℝ) : List ℝ := lastNR (min a.length b.length) a

/-- Trailing window `b.slice(-n)` of the second correlation argument. -/
noncomputable def pearsonWindowB (a b : List ℝ) : List ℝ := lastNR (min a.length b.length) b

/-- The loop accumulator `num = Σ (ax[i]−meanA)(bx[i]−meanB)` of
`pearsonCorrelation`. -/
noncomputable def pearsonNum (a b : List ℝ) : ℝ :=
  let n := min a.length b.length
  let meanA := (pearsonWindowA a b).sum / n
  let meanB := (pearsonWindowB a b).sum / n
  (((pearsonWindowA a b).zip (pearsonWindowB a b)).map
      (fun p => (p.1 - meanA) * (p.2 - meanB))).sum

/-- The loop accumulator `sA = Σ (ax[i]−meanA)²` of `pearsonCorrelation`. -/
noncomputable def pearsonSA (a b : List ℝ) : ℝ :=
  let meanA := (pearsonWindowA a b).sum / (min a.length b.length)
  ((pearsonWindowA a b).map (fun x => (x - meanA) * (x - meanA))).sum

/-- The loop accumulator `sB = Σ (bx[i]−meanB)²` of `pearsonCorrelation`. -/
noncomputable def pearsonSB (a b : List ℝ) : ℝ :=
  let meanB := (pearsonWindowB a b).sum / (min a.length b.length)
  ((pearsonWindowB a b).map (fun x => (x - meanB) * (x - meanB))).sum

open Classical in
/-- `pearsonCorrelation(a, b)`; the `NaN` returns are `none`. In this typed
embedding the arguments are always arrays, so the source's
`!Array.isArray` early `NaN` cannot fire. -/
noncomputable def pearsonCorrelation (a b : List ℝ) : Option ℝ :=
  if min a.length b.length < 2 then none
  else
    let den := Real.sqrt (pearsonSA a b * pearsonSB a b)
    if den = 0 then none else some (round2R (pearsonNum a b / den))

/-- `clamp(v, lo=0, hi=1)` from the harvest helpers. -/
noncomputable def clamp (v lo hi : ℝ) : ℝ := max lo (min hi v)

/-- `normCdh` component of `computeReadiness`. -/
noncomputable def normCdhOf (cdh targetCdh : ℝ) : ℝ := clamp (cdh / max 1 targetCdh) 0 1

/-- `moistureScore` component of `computeReadiness`; `none` stands for the
source's `null`/`undefined`/`NaN` moisture. -/
noncomputable def moistureScoreOf (moisture : Option ℝ) : ℝ :=
  match moisture with
  | none => 0.5
  | some m => 1 - clamp (|m - 60| / 20) 0 1

/-- `stabilityScore` local of `computeReadiness` (temperature stability from
the unrounded population standard deviation; 0.5 below 3 samples). -/
noncomputable def stabilityComponentOf (temps : List ℝ) : ℝ :=
  if 3 ≤ temps.length then
    let mean := temps.sum / temps.length
    let sd := Real.sqrt ((temps.map (fun b => (b - mean) * (b - mean))).sum / temps.length)
    1 - clamp (sd / 6) 0 1
  else 0.5

/-- Components record of `computeReadiness` (each scaled to 0–100). -/
structure ReadinessComponents where
  cdh : ℝ
  moisture : ℝ
  stability : ℝ

/-- Output record of `computeReadiness`. -/
structure ReadinessResult where
  readiness : ℝ
  components : ReadinessComponents

/-- `computeReadiness(cdh, targetCdh=1000, moisture, temps)`. -/
noncomputable def computeReadiness (cdh targetCdh : ℝ) (moisture : Option ℝ)
    (temps : List ℝ) : ReadinessResult :=
  let n := normCdhOf cdh targetCdh
  let m := moistureScoreOf moisture
  let s := stabilityComponentOf temps
  let r := clamp (n * 0.7 + m * 0.2 + s * 0.1) 0 1
  { readiness := round1R (r * 100)
    components :=
      { cdh := round1R (n * 100), moisture := round1R (m * 100),
        stability := round1R (s * 100) } }

/-- The five series the module-level `stabilityScore` reads from its map
argument (the fixed key set of its weight table). -/
structure SeriesMap where
  temp : List ℝ
  moist : List ℝ
  n : List ℝ
  p : List ℝ
  k : List ℝ

/-- One iteration of the `stabilityScore` loop: the amount subtracted from
the running score for a series (0 when the series has fewer than 4 samples). -/
noncomputable def stabilityPenalty (arr : List ℝ) (scale w : ℝ) : ℝ :=
  if arr.length < 4 then 0 else min 1 (stddev arr / scale) * w * 100

/-- Module-level `stabilityScore(seriesMap)`: 100 minus the per-series
penalties (temp 0.35/12, moist 0.35/10, n p k 0.1/100), clamped to
[0, 100] and rounded to an integer. -/
noncomputable def stabilityScore (m : SeriesMap) : ℤ :=
  round (max 0 (min 100
    (100 - stabilityPenalty m.temp 12 0.35 - stabilityPenalty m.moist 10 0.35
      - stabilityPenalty m.n 100 0.1 - stabilityPenalty m.p 100 0.1
      - stabilityPenalty m.k 100 0.1)))

/-! Helper lemmas. -/

theorem lastN_length_of_le {n : ℕ} {l : List ℚ} (h : n ≤ l.length) :
    (lastN n l).length = n := by
  simp [lastN]
  omega

theorem lastN_of_length_le {n : ℕ} {l : List ℚ} (h : l.length ≤ n) :
    lastN n l = l := by
  simp [lastN, Nat.sub_eq_zero_of_le h]

theorem round3_mono {x y : ℚ} (h : x ≤ y) : round3 x ≤ round3 y := by
  unfold round3
  have : (⌊x * 1000 + 1 / 2⌋ : ℤ) ≤ ⌊y * 1000 + 1 / 2⌋ := by
    apply Int.floor_le_floor
    nlinarith
  rw [div_le_div_iff_of_pos_right (by norm_num : (0:ℚ) < 1000)]
  exact_mod_cast this

theorem cdhDt_nonneg (times : Option (List ℚ)) (i : ℕ) : 0 ≤ cdhDt times i := by
  unfold cdhDt
  split
  · norm_num
  · split
    · exact le_max_left 0 _
    · split
      · split
        · exact le_max_left 0 _
        · exact le_refl 0
        · norm_num
      · norm_num

theorem cdhTotal_le_succ (temps : List ℚ) (times : Option (List ℚ)) (b : ℚ) (k : ℕ) :
    cdhTotal temps times b k ≤ cdhTotal temps times b (k + 1) := by
  have : 0 ≤ max 0 (temps.getD k 0 - b) * cdhDt times k :=
    mul_nonneg (le_max_left 0 _) (cdhDt_nonneg times k)
  simpa [cdhTotal] using this

/-! Claim theorems. -/

/-- C1 counterexample: on three samples 5° above a baseline of 20 at exact
one-hour steps, `computeCdh` does not return `cdh = 10`. -/
theorem computeCdh_hourly_example_ne_ten :
    ¬(computeCdh [25, 25, 25] (some [0, 3600000, 7200000]) 20).cdh = 10 := by
  norm_num [computeCdh, cdhTotal, cdhDt, round3]

/-- C1 amended: `computeCdh([25,25,25], [0,3600000,7200000], 20)` returns
`cdh = 15.0`: the loop adds `max(0, temp[i] − baseline) · Δt_hours` at every
sample — the forward difference (1 h) at samples 0 and 1 and the backward
difference (1 h) at the final sample — so the total is 5 + 5 + 5. -/
theorem computeCdh_hourly_example_eq_fifteen :
    (computeCdh [25, 25, 25] (some [0, 3600000, 7200000]) 20).cdh = 15 := by
  norm_num [computeCdh, cdhTotal, cdhDt, round3]

/-- C2 counterexample: a timestamp series longer than the value series does
not give `rateOfChangePerHour` the same result as its trailing slice — the
length mismatch makes it fall back to index-based regression. -/
theorem rateOfChangePerHour_not_right_aligned :
    rateOfChangePerHour [0, 2] (some [0, 0, 7200000]) ≠
      rateOfChangePerHour [0, 2] (some (lastN 2 [0, 0, 7200000])) := by
  have hr : List.range 2 = [0, 1] := rfl
  norm_num [rateOfChangePerHour, lastN, round4, hr]

/-- C2 amended: of the series functions, `computeTrend` right-aligns a
timestamp series of equal or greater length (a longer array gives the same
result as its trailing `n` elements), while `rateOfChangePerHour` uses
timestamps only when their length equals the value series' length exactly
and otherwise falls back to index-based regression. -/
theorem trailing_alignment_amended (opts : TrendSettings) (arr ts values ts' : List ℚ)
    (h : arr.length ≤ ts.length) (h' : ts'.length ≠ values.length) :
    computeTrend opts arr (some ts) = computeTrend opts arr (some (lastN arr.length ts))
    ∧ rateOfChangePerHour values (some ts') = rateOfChangePerHour values none := by
  constructor
  · by_cases h2 : arr.length < 2
    · simp [computeTrend, h2]
    · have hlen : (lastN arr.length ts).length = arr.length := lastN_length_of_le h
      simp only [computeTrend, h2, if_false, hlen, h, le_refl, if_true,
        lastN_of_length_le (le_of_eq hlen)]
  · simp [rateOfChangePerHour, h']

/-- C2 witness. -/
theorem trailing_alignment_amended_witness :
    ([(1 : ℚ), 2]).length ≤ ([(0 : ℚ), 1, 2]).length
    ∧ ([(0 : ℚ), 0, 7200000]).length ≠ ([(0 : ℚ), 2]).length
    ∧ (computeTrend ⟨none, none, none⟩ [1, 2] (some [0, 1, 2])
          = computeTrend ⟨none, none, none⟩ [1, 2] (some (lastN 2 [0, 1, 2]))
        ∧ rateOfChangePerHour [0, 2] (some [0, 0, 7200000])
          = rateOfChangePerHour [0, 2] none) :=
  ⟨by decide, by decide,
    trailing_alignment_amended ⟨none, none, none⟩ [1, 2] [0, 1, 2] [0, 2] [0, 0, 7200000]
      (by decide) (by decide)⟩

/-- C3 counterexample: `timeToTarget` reads the wall clock, so two calls
with identical argument values made at different instants return different
records (the `eta` field moves with the clock). -/
theorem timeToTarget_clock_dependent :
    timeToTarget [0, 1] none 3600001 0 ≠ timeToTarget [0, 1] none 3600001 1 := by
  have hr : List.range 2 = [0, 1] := rfl
  norm_num [timeToTarget, rateOfChangePerHour, lastN, round4, hr]

/-- C3 amended: every analytics function is a deterministic function of its
arguments together with the ambient inputs it reads — the settings snapshot
for `computeTrend` and the `Date.now()` reading for `timeToTarget`. Two
`timeToTarget` calls with the same arguments always agree on `hours` (and on
whether a record is returned at all); the full record, including `eta`, is
identical exactly when the clock reading is the same. -/
theorem analytics_deterministic (opts : TrendSettings) (arr : List ℚ)
    (times : Option (List ℚ)) (values : List ℚ) (ts : Option (List ℚ))
    (target now now' : ℚ) :
    computeTrend opts arr times = computeTrend opts arr times
    ∧ timeToTarget values ts target now = timeToTarget values ts target now
    ∧ (timeToTarget values ts target now).map TTResult.hours
        = (timeToTarget values ts target now').map TTResult.hours := by
  refine ⟨rfl, rfl, ?_⟩
  unfold timeToTarget
  by_cases h0 : values.length = 0
  · simp [h0]
  · simp only [h0, if_false]
    split <;> simp

/-- C4: for series of length ≥ 2, `computeTrend` assigns the label by
first-match-wins: `slopeNorm > sT ∨ pct > pT` → Rising; else
`slopeNorm < −sT ∨ pct < −pT` → Falling; else `|pct| > slight` → Slightly
rising/falling by the sign of `pct`; else Stable. -/
theorem computeTrend_classification (opts : TrendSettings) (arr : List ℚ)
    (times : Option (List ℚ)) (h : 2 ≤ arr.length) :
    (computeTrend opts arr times).trend =
      (if opts.slopeNormThreshold.getD 0.6 < (computeTrend opts arr times).slopeNorm
          ∨ opts.pctThreshold.getD 3 < (computeTrend opts arr times).pct then "Rising"
       else if (computeTrend opts arr times).slopeNorm < -(opts.slopeNormThreshold.getD 0.6)
          ∨ (computeTrend opts arr times).pct < -(opts.pctThreshold.getD 3) then "Falling"
       else if opts.slightPct.getD 1.5 < |(computeTrend opts arr times).pct| then
         (if 0 < (computeTrend opts arr times).pct then "Slightly rising"
          else "Slightly falling")
       else "Stable") := by
  have h2 : ¬arr.length < 2 := by omega
  simp only [computeTrend, h2, if_false, trendLabel]

/-- C4 witness. -/
theorem computeTrend_classification_witness :
    2 ≤ ([(1 : ℚ), 2]).length
    ∧ (computeTrend ⟨none, none, none⟩ [1, 2] none).trend =
      (if (⟨none, none, none⟩ : TrendSettings).slopeNormThreshold.getD 0.6 <
            (computeTrend ⟨none, none, none⟩ [1, 2] none).slopeNorm
          ∨ (⟨none, none, none⟩ : TrendSettings).pctThreshold.getD 3 <
            (computeTrend ⟨none, none, none⟩ [1, 2] none).pct then "Rising"
       else if (computeTrend ⟨none, none, none⟩ [1, 2] none).slopeNorm <
            -((⟨none, none, none⟩ : TrendSettings).slopeNormThreshold.getD 0.6)
          ∨ (computeTrend ⟨none, none, none⟩ [1, 2] none).pct <
            -((⟨none, none, none⟩ : TrendSettings).pctThreshold.getD 3) then "Falling"
       else if (⟨none, none, none⟩ : TrendSettings).slightPct.getD 1.5 <
            |(computeTrend ⟨none, none, none⟩ [1, 2] none).pct| then
         (if 0 < (computeTrend ⟨none, none, none⟩ [1, 2] none).pct then "Slightly rising"
          else "Slightly falling")
       else "Stable") :=
  ⟨by decide, computeTrend_classification ⟨none, none, none⟩ [1, 2] none (by decide)⟩

/-- C5: for series of length ≥ 2, the `interp` field is determined by the
label alone — Rising and Falling get their dedicated strings, and every
other label (Stable, Slightly rising, Slightly falling) gets the Stable
string. -/
theorem computeTrend_interp (opts : TrendSettings) (arr : List ℚ)
    (times : Option (List ℚ)) (h : 2 ≤ arr.length) :
    (computeTrend opts arr times).interp =
      (if (computeTrend opts arr times).trend = "Rising" then
        "Increasing — investigate causes"
       else if (computeTrend opts arr times).trend = "Falling" then
        "Decreasing — consider corrective action"
       else "Stable — within expected variation") := by
  have h2 : ¬arr.length < 2 := by omega
  simp only [computeTrend, h2, if_false, trendInterp]

/-- C5 witness. -/
theorem computeTrend_interp_witness :
    2 ≤ ([(1 : ℚ), 2]).length
    ∧ (computeTrend ⟨none, none, none⟩ [1, 2] none).interp =
      (if (computeTrend ⟨none, none, none⟩ [1, 2] none).trend = "Rising" then
        "Increasing — investigate causes"
       else if (computeTrend ⟨none, none, none⟩ [1, 2] none).trend = "Falling" then
        "Decreasing — consider corrective action"
       else "Stable — within expected variation") :=
  ⟨by decide, computeTrend_interp ⟨none, none, none⟩ [1, 2] none (by decide)⟩

/-- C8: with timestamps absent or aligned and non-decreasing, the CDH series
has the input's length, is monotonically non-decreasing, its last element
(0 for the empty series) equals `cdh`, and empty input yields `{cdh: 0,
series: []}`. -/
theorem computeCdh_series_invariants (temps : List ℚ) (times : Option (List ℚ)) (base : ℚ)
    (h : times = none
      ∨ ∃ ts, times = some ts ∧ ts.length = temps.length ∧ List.Chain' (· ≤ ·) ts) :
    (computeCdh temps times base).series.length = temps.length
    ∧ (computeCdh temps times base).series
        = (List.range temps.length).map (fun i => round3 (cdhTotal temps times base (i + 1)))
    ∧ List.Chain' (· ≤ ·) (computeCdh temps times base).series
    ∧ (computeCdh temps times base).cdh = (computeCdh temps times base).series.getLastD 0
    ∧ computeCdh [] times base = ⟨0, []⟩ := by
  have hlast : ∀ g : ℕ → ℚ, ∀ m : ℕ, (((List.range (m + 1)).map g).getLastD 0) = g m := by
    intro g m
    rw [List.range_succ, List.map_append]
    exact List.getLastD_concat _ _ _
  refine ⟨?_, ?_, ?_, ?_, rfl⟩
  · unfold computeCdh
    split
    · next h0 => simp [h0]
    · simp
  · unfold computeCdh
    split
    · next h0 => simp [h0]
    · simp
  · unfold computeCdh
    split
    · exact List.chain'_nil
    · simp only []
      rw [List.chain'_iff_get]
      intro i hi
      simp only [List.get_eq_getElem, List.getElem_map, List.getElem_range,
        List.length_map, List.length_range] at hi ⊢
      exact round3_mono (cdhTotal_le_succ temps times base (i + 1))
  · unfold computeCdh
    split
    · rfl
    · next h0 =>
      rcases Nat.exists_eq_succ_of_ne_zero h0 with ⟨m, hm⟩
      simp only [hm, hlast]

/-- C8 witness. -/
theorem computeCdh_series_invariants_witness :
    ((none : Option (List ℚ)) = none
      ∨ ∃ ts, (none : Option (List ℚ)) = some ts ∧ ts.length = ([(25 : ℚ), 19, 30]).length
          ∧ List.Chain' (· ≤ ·) ts)
    ∧ ((computeCdh [25, 19, 30] none 20).series.length = ([(25 : ℚ), 19, 30]).length
        ∧ (computeCdh [25, 19, 30] none 20).series
            = (List.range ([(25 : ℚ), 19, 30]).length).map
                (fun i => round3 (cdhTotal [25, 19, 30] none 20 (i + 1)))
        ∧ List.Chain' (· ≤ ·) (computeCdh [25, 19, 30] none 20).series
        ∧ (computeCdh [25, 19, 30] none 20).cdh
            = (computeCdh [25, 19, 30] none 20).series.getLastD 0
        ∧ computeCdh [] none 20 = ⟨0, []⟩) :=
  ⟨Or.inl rfl, computeCdh_series_invariants [25, 19, 30] none 20 (Or.inl rfl)⟩

/-- Sums of squared deviations are nonnegative. -/
theorem sum_sq_nonneg (l : List ℝ) (c : ℝ) :
    0 ≤ (l.map (fun x => (x - c) * (x - c))).sum := by
  apply List.sum_nonneg
  intro x hx
  simp only [List.mem_map] at hx
  obtain ⟨y, _, rfl⟩ := hx
  exact mul_self_nonneg _

theorem pearsonSA_nonneg (a b : List ℝ) : 0 ≤ pearsonSA a b := by
  unfold pearsonSA
  exact sum_sq_nonneg _ _

theorem pearsonSB_nonneg (a b : List ℝ) : 0 ≤ pearsonSB a b := by
  unfold pearsonSB
  exact sum_sq_nonneg _ _

/-- C6: `pearsonCorrelation` signals not-a-number (`none`) exactly when the
overlap `min(len a, len b)` is below 2 or either trailing-aligned window has
zero variance (in this typed embedding the arguments are always arrays, so
the non-array case cannot arise); otherwise it returns the rounded Pearson
r — in particular `1` on `[1,2,3]`/`[2,4,6]` and `−1` on `[1,2,3]`/`[3,2,1]`. -/
theorem pearsonCorrelation_spec :
    (∀ a b : List ℝ, pearsonCorrelation a b = none ↔
        min a.length b.length < 2 ∨ pearsonSA a b = 0 ∨ pearsonSB a b = 0)
    ∧ pearsonCorrelation [1, 2, 3] [2, 4, 6] = some 1
    ∧ pearsonCorrelation [1, 2, 3] [3, 2, 1] = some (-1) := by
  refine ⟨fun a b => ?_, ?_, ?_⟩
  · unfold pearsonCorrelation
    by_cases hn : min a.length b.length < 2
    · simp [hn]
    · have hA := pearsonSA_nonneg a b
      have hB := pearsonSB_nonneg a b
      have hd : Real.sqrt (pearsonSA a b * pearsonSB a b) = 0 ↔
          (pearsonSA a b = 0 ∨ pearsonSB a b = 0) := by
        rw [Real.sqrt_eq_zero (mul_nonneg hA hB), mul_eq_zero]
      by_cases hz : Real.sqrt (pearsonSA a b * pearsonSB a b) = 0
      · simp [hn, hz, hd.mp hz]
      · have : ¬(pearsonSA a b = 0 ∨ pearsonSB a b = 0) := fun hc => hz (hd.mpr hc)
        simp [hn, hz, this]
  · have hA : pearsonSA [1, 2, 3] [2, 4, 6] = 2 := by
      norm_num [pearsonSA, pearsonWindowA, lastNR]
    have hB : pearsonSB [1, 2, 3] [2, 4, 6] = 8 := by
      norm_num [pearsonSB, pearsonWindowB, lastNR]
    have hnum : pearsonNum [1, 2, 3] [2, 4, 6] = 4 := by
      norm_num [pearsonNum, pearsonWindowA, pearsonWindowB, lastNR]
    have hs : Real.sqrt ((2 : ℝ) * 8) = 4 := by
      rw [show ((2 : ℝ) * 8) = 4 ^ 2 by norm_num]
      exact Real.sqrt_sq (by norm_num)
    unfold pearsonCorrelation
    rw [hA, hB, hnum, hs]
    norm_num [round2R]
  · have hA : pearsonSA [1, 2, 3] [3, 2, 1] = 2 := by
      norm_num [pearsonSA, pearsonWindowA, lastNR]
    have hB : pearsonSB [1, 2, 3] [3, 2, 1] = 2 := by
      norm_num [pearsonSB, pearsonWindowB, lastNR]
    have hnum : pearsonNum [1, 2, 3] [3, 2, 1] = -2 := by
      norm_num [pearsonNum, pearsonWindowA, pearsonWindowB, lastNR]
    have hs : Real.sqrt ((2 : ℝ) * 2) = 2 := by
      rw [show ((2 : ℝ) * 2) = 2 ^ 2 by norm_num]
      exact Real.sqrt_sq (by norm_num)
    unfold pearsonCorrelation
    rw [hA, hB, hnum, hs]
    have hr : round ((-100 : ℝ)) = -100 := by
      rw [show ((-100 : ℝ)) = ((-100 : ℤ) : ℝ) by norm_num]
      exact round_intCast (-100)
    norm_num [round2R, hr]

theorem popVariance_nonneg (arr : List ℝ) : 0 ≤ popVariance arr := by
  unfold popVariance
  apply div_nonneg (sum_sq_nonneg _ _)
  positivity

theorem popSd_eq_zero_iff (arr : List ℝ) : popSd arr = 0 ↔ popVariance arr = 0 := by
  unfold popSd
  rw [Real.sqrt_eq_zero (popVariance_nonneg arr)]

open Classical in
/-- C7: `detectAnomalies` returns the empty list whenever the population
standard deviation is zero (however the threshold is chosen), and otherwise
returns exactly the 0-based indices whose absolute z-score meets the
threshold, in strictly increasing index order and with no bound on count. -/
theorem detectAnomalies_spec : ∀ (arr : List ℝ) (t : ℝ),
    List.Sorted (· < ·) (detectAnomalies arr t)
    ∧ detectAnomalies arr t
        = (if popVariance arr = 0 then []
           else (List.range arr.length).filter
             (fun i => t ≤ |(arr.getD i 0 - popMean arr) / popSd arr|))
    ∧ (∀ i : ℕ, i ∈ detectAnomalies arr t ↔
        (popVariance arr ≠ 0 ∧ i < arr.length
          ∧ t ≤ |(arr.getD i 0 - popMean arr) / popSd arr|)) := by
  intro arr t
  have hb := popSd_eq_zero_iff arr
  refine ⟨?_, ?_, ?_⟩
  · unfold detectAnomalies
    split
    · exact List.sorted_nil
    · exact (List.sorted_lt_range arr.length).filter _
  · unfold detectAnomalies
    by_cases hz : popVariance arr = 0
    · simp [hz, hb.mpr hz]
    · have hsd : ¬popSd arr = 0 := fun hc => hz (hb.mp hc)
      simp [hz, hsd]
  · intro i
    unfold detectAnomalies
    by_cases hz : popVariance arr = 0
    · simp [hb.mpr hz, hz]
    · have hsd : ¬popSd arr = 0 := fun hc => hz (hb.mp hc)
      simp [hsd, hz, List.mem_filter, List.mem_range]

/-- C9: `computeReadiness` returns
`clamp(0.7·normCdh + 0.2·moistureScore + 0.1·stability, 0, 1) · 100` rounded
to one decimal, together with each component scaled to 0–100; on CDH at
target, ideal moisture and zero temperature variance it returns exactly
`100.0`. -/
theorem computeReadiness_spec :
    (∀ (cdh targetCdh : ℝ) (moisture : Option ℝ) (temps : List ℝ),
      (computeReadiness cdh targetCdh moisture temps).readiness
          = round1R (clamp (normCdhOf cdh targetCdh * 0.7 + moistureScoreOf moisture * 0.2
              + stabilityComponentOf temps * 0.1) 0 1 * 100)
        ∧ (computeReadiness cdh targetCdh moisture temps).components.cdh
            = round1R (normCdhOf cdh targetCdh * 100)
        ∧ (computeReadiness cdh targetCdh moisture temps).components.moisture
            = round1R (moistureScoreOf moisture * 100)
        ∧ (computeReadiness cdh targetCdh moisture temps).components.stability
            = round1R (stabilityComponentOf temps * 100))
    ∧ (computeReadiness 1000 1000 (some 60) [20, 20, 20, 20]).readiness = 100 := by
  constructor
  · exact fun cdh targetCdh moisture temps => ⟨rfl, rfl, rfl, rfl⟩
  · have h1 : normCdhOf 1000 1000 = 1 := by
      unfold normCdhOf clamp
      rw [max_eq_right (by norm_num : (1 : ℝ) ≤ 1000)]
      norm_num
    have hmo : moistureScoreOf (some 60) = 1 := by
      unfold moistureScoreOf clamp
      norm_num
    have hst : stabilityComponentOf [20, 20, 20, 20] = 1 := by
      unfold stabilityComponentOf clamp
      norm_num [Real.sqrt_zero]
    show round1R (clamp (normCdhOf 1000 1000 * 0.7 + moistureScoreOf (some 60) * 0.2
        + stabilityComponentOf [20, 20, 20, 20] * 0.1) 0 1 * 100) = 100
    rw [h1, hmo, hst]
    unfold clamp round1R
    norm_num

/-- A rounded clamp to [0, 100] lands in [0, 100] as an integer. -/
theorem round_clamp_bounds (x : ℝ) :
    0 ≤ round (max 0 (min 100 x)) ∧ round (max 0 (min 100 x)) ≤ 100 := by
  have hlo : (0 : ℝ) ≤ max 0 (min 100 x) := le_max_left 0 _
  have hhi : max 0 (min 100 x) ≤ 100 := max_le (by norm_num) (min_le_left _ _)
  constructor
  · rw [round_eq]
    exact Int.le_floor.mpr (by push_cast; linarith)
  · rw [round_eq]
    have : (⌊max 0 (min 100 x) + 1 / 2⌋ : ℤ) < 100 + 1 :=
      Int.floor_lt.mpr (by push_cast; linarith)
    omega

theorem stabilityPenalty_of_short {arr : List ℝ} (scale w : ℝ) (h : arr.length < 4) :
    stabilityPenalty arr scale w = 0 := by
  unfold stabilityPenalty
  simp [h]

/-- C10: `stabilityScore` always returns an integer in [0, 100]; and when
every one of the five weighted series (temp, moist, n, p, k) is absent or
has fewer than 4 samples — including the empty map — it returns exactly
100. -/
theorem stabilityScore_spec (m m' : SeriesMap)
    (h1 : m'.temp.length < 4) (h2 : m'.moist.length < 4) (h3 : m'.n.length < 4)
    (h4 : m'.p.length < 4) (h5 : m'.k.length < 4) :
    0 ≤ stabilityScore m ∧ stabilityScore m ≤ 100 ∧ stabilityScore m' = 100 := by
  refine ⟨(round_clamp_bounds _).1, (round_clamp_bounds _).2, ?_⟩
  unfold stabilityScore
  rw [stabilityPenalty_of_short _ _ h1, stabilityPenalty_of_short _ _ h2,
    stabilityPenalty_of_short _ _ h3, stabilityPenalty_of_short _ _ h4,
    stabilityPenalty_of_short _ _ h5]
  norm_num

/-- C10 witness. -/
theorem stabilityScore_spec_witness :
    ([] : List ℝ).length < 4
    ∧ (0 ≤ stabilityScore ⟨[], [], [], [], []⟩
        ∧ stabilityScore ⟨[], [], [], [], []⟩ ≤ 100
        ∧ stabilityScore ⟨[], [], [], [], []⟩ = 100) :=
  ⟨by decide,
    stabilityScore_spec ⟨[], [], [], [], []⟩ ⟨[], [], [], [], []⟩ (by decide) (by decide)
      (by decide) (by decide) (by decide)⟩

end Terratrak
